import Mathlib

/-!
Verification of the Track Query Resolver of a mongo-backed HTTP service
(source: src/server.js).  The service exposes read-only query endpoints over
a collection of music-track records.  We shallowly embed the data model, the
record store (a mongoose collection, modelled as an ordered list of records
with pure query primitives), and every route handler, in state-passing style
so that frame properties (handlers do not mutate the store) are expressible.
-/

/-- One Track record, mirroring the mongoose schema in src/server.js
(lines 42-58).  Mongoose additionally assigns every document a primary key,
the ObjectId field, modelled here as the string field oid (the store key is
distinct from the domain id attribute). -/
structure Track where
  oid : String
  id : Int
  trackName : String
  artistName : String
  genre : String
  year : Int
  bpm : Int
  energy : Int
  danceability : Int
  loudness : Int
  liveness : Int
  valence : Int
  length : Int
  acousticness : Int
  speechiness : Int
  popularity : Int
deriving Repr, DecidableEq

/-- The schema field names recognizable in an exact-match filter map. -/
inductive QField where
  | id | trackName | artistName | genre | year | bpm | energy | danceability
  | loudness | liveness | valence | length | acousticness | speechiness
  | popularity
deriving Repr, DecidableEq

/-- An HTTP query string, as express hands it to the handler: an association
map from field names to raw string values. -/
abbrev Query := List (QField × String)

/-- The record store: the contents of the Track collection, in store order. -/
abbrev Store := List Track

/-- Numeric value of one decimal digit character. -/
def digitVal (c : Char) : Nat := c.toNat - '0'.toNat

/-- Parse a nonempty all-digit character list as a decimal natural. -/
def parseNatChars : List Char → Option Nat
  | [] => none
  | cs => if cs.all Char.isDigit then
      some (cs.foldl (fun acc c => acc * 10 + digitVal c) 0)
    else none

/-- Parse a string as a decimal integer with an optional leading minus sign;
returns none on the empty string or any non-numeral.  This is the cast the
store applies to raw query-string values bound for numeric fields. -/
def strToInt? (s : String) : Option Int :=
  match s.toList with
  | '-' :: rest => (parseNatChars rest).map fun n => -(n : Int)
  | cs => (parseNatChars cs).map fun n => (n : Int)

/-- Mongoose casts a query-string value against a Number schema field: the
record matches when the string parses as that number.  A value that does not
parse (for example the empty string) matches no record. -/
def numMatch (n : Int) (v : String) : Bool :=
  match strToInt? v with
  | some m => n == m
  | none => false

/-- Exact-match test of one filter pair against one record, per the schema
type of the field: string fields compare string equality, numeric fields
compare the cast value. -/
def matchField (t : Track) : QField → String → Bool
  | .trackName, v => t.trackName == v
  | .artistName, v => t.artistName == v
  | .genre, v => t.genre == v
  | .id, v => numMatch t.id v
  | .year, v => numMatch t.year v
  | .bpm, v => numMatch t.bpm v
  | .energy, v => numMatch t.energy v
  | .danceability, v => numMatch t.danceability v
  | .loudness, v => numMatch t.loudness v
  | .liveness, v => numMatch t.liveness v
  | .valence, v => numMatch t.valence v
  | .length, v => numMatch t.length v
  | .acousticness, v => numMatch t.acousticness v
  | .speechiness, v => numMatch t.speechiness v
  | .popularity, v => numMatch t.popularity v

/-- A record matches a filter map when it matches every supplied pair. -/
def matchesFilter (q : Query) (t : Track) : Bool :=
  q.all fun p => matchField t p.1 p.2

/-- An HTTP response of this service: a JSON array of records, a single JSON
record, a JSON error body with a message, or a plain text body. -/
inductive Resp where
  | json (status : Nat) (body : List Track)
  | jsonOne (status : Nat) (t : Track)
  | err (status : Nat) (msg : String)
  | text (status : Nat) (s : String)
deriving Repr, DecidableEq

/-- The HTTP status code of a response. -/
def Resp.status : Resp → Nat
  | .json s _ => s
  | .jsonOne s _ => s
  | .err s _ => s
  | .text s _ => s

/-- The record collection carried by a response (empty for non-array
responses). -/
def respBody : Resp → List Track
  | .json _ l => l
  | _ => []

/-- The number of records in a collection response. -/
def respLen (r : Resp) : Nat := (respBody r).length

/-- JavaScript truthiness of a query-parameter string value: every string is
truthy except the empty string. -/
def jsTruthy (s : String) : Bool := !(s == "")

/-- JavaScript truthiness of an array value: arrays are objects and objects
are always truthy, even when empty. -/
def arrayTruthy (_ : List Track) : Bool := true

/-- Track.find(req.query): multi-field exact-match query.  A pure read: the
result pairs the matching records (in store order) with the unchanged
store. -/
def Track.find (store : Store) (q : Query) : List Track × Store :=
  (store.filter (matchesFilter q), store)

/-- The cast-and-compare test of the gt threshold query: mongoose casts the
raw string value to a number and keeps records whose field strictly exceeds
it; a value that does not parse matches no record. -/
def gtCast (v : String) (d : Int) : Bool :=
  match strToInt? v with
  | some m => m < d
  | none => false

/-- Track.find().gt(danceability, v) from the handler on line 84: threshold
query over the danceability field, with no limit applied.  A pure read. -/
def Track.findGtDanceability (store : Store) (v : String) : List Track × Store :=
  (store.filter (fun t => gtCast v t.danceability), store)

/-- Hex-digit test for ObjectId characters. -/
def isHexChar (c : Char) : Bool :=
  c.isDigit || ('a' ≤ c && c ≤ 'f') || ('A' ≤ c && c ≤ 'F')

/-- Well-formedness of a store primary key: a 24-character hex string, the
ObjectId shape mongoose accepts without a cast error. -/
def validObjectId (s : String) : Bool :=
  s.length == 24 && s.toList.all isHexChar

/-- Track.findById(key): primary-key lookup.  A malformed key raises a cast
error (the error branch); a well-formed key resolves to the first record
with that key, or to none.  A pure read. -/
def Track.findById (store : Store) (key : String) :
    Except String (Option Track) × Store :=
  if validObjectId key then
    (.ok (store.find? fun t => t.oid == key), store)
  else
    (.error "CastError", store)

/-- Track.find(predicate, callback) as used by the fixed-collection routes:
the callback receives an error or the matching records.  In this store model
a query over a list never fails, so the result is always ok; the handlers
still pattern-match the error branch, mirroring the source.  A pure read. -/
def Track.findCb (store : Store) (p : Track → Bool) :
    Except String (List Track) × Store :=
  (.ok (store.filter p), store)

/-- Track.deleteMany(\x7b\x7d): removes every record. -/
def Track.deleteManyAll (_ : Store) : Store := []

/-- newTrack.save(): appends one record to the collection. -/
def Track.save (store : Store) (t : Track) : Store := store ++ [t]

/-- Handler of GET /tracks/ (src/server.js lines 77-94), state-passing.
It first runs the exact-match query limited to 10, checks truthiness of the
result, then, when a truthy danceability parameter is present, discards that
result and answers with the unlimited gt threshold query instead. -/
def getTracksS (store : Store) (q : Query) : Resp × Store :=
  let r1 := Track.find store q
  let tracks := r1.1.take 10
  if arrayTruthy tracks then
    match q.lookup QField.danceability with
    | some v =>
      if jsTruthy v then
        let r2 := Track.findGtDanceability r1.2 v
        (Resp.json 200 r2.1, r2.2)
      else
        (Resp.json 200 tracks, r1.2)
    | none => (Resp.json 200 tracks, r1.2)
  else
    (Resp.err 404 "Not found", r1.2)

/-- Handler of GET /tracks/id/:id (src/server.js lines 97-108),
state-passing: 200 with the record, 404 when absent, 400 on a cast error. -/
def getTrackByIdS (store : Store) (key : String) : Resp × Store :=
  let r := Track.findById store key
  match r.1 with
  | .ok (some t) => (Resp.jsonOne 200 t, r.2)
  | .ok none => (Resp.err 404 "Track not found", r.2)
  | .error _ => (Resp.err 400 "Invalid Id", r.2)

/-- Handler of GET /tracks/artist/billie_eilish (src/server.js lines
111-119). -/
def artistBillieEilishS (store : Store) : Resp × Store :=
  let r := Track.findCb store (fun t => t.artistName == "Billie Eilish")
  match r.1 with
  | .error _ => (Resp.err 404 "Not found", r.2)
  | .ok data => (Resp.json 200 data, r.2)

/-- Handler of GET /tracks/genre/pop (src/server.js lines 122-130). -/
def genrePopS (store : Store) : Resp × Store :=
  let r := Track.findCb store (fun t => t.genre == "pop")
  match r.1 with
  | .error _ => (Resp.err 404 "Not found", r.2)
  | .ok data => (Resp.json 200 data, r.2)

/-- Handler of GET /tracks/playlists/workout/ (src/server.js lines 133-141),
the gte 80 energy threshold query. -/
def workoutS (store : Store) : Resp × Store :=
  let r := Track.findCb store (fun t => 80 ≤ t.energy)
  match r.1 with
  | .error _ => (Resp.err 404 "Not found", r.2)
  | .ok tracks => (Resp.json 200 tracks, r.2)

/-- Handler of GET /tracks/playlists/calm/ (src/server.js lines 144-152),
the lte 20 energy threshold query. -/
def calmS (store : Store) : Resp × Store :=
  let r := Track.findCb store (fun t => t.energy ≤ 20)
  match r.1 with
  | .error _ => (Resp.err 404 "Not found", r.2)
  | .ok tracks => (Resp.json 200 tracks, r.2)

/-- The routes the service exposes. -/
inductive Route where
  | root
  | endpoints
  | tracks (q : Query)
  | trackById (key : String)
  | artistBillieEilish
  | genrePop
  | playlistWorkout
  | playlistCalm

/-- Route dispatch after the connection guard (the endpoints listing is
modelled as an opaque text body). -/
def dispatchS (store : Store) : Route → Resp × Store
  | .root => (Resp.text 200 "Type /endpoints in the URL bar to start.", store)
  | .endpoints => (Resp.text 200 "endpoint list", store)
  | .tracks q => getTracksS store q
  | .trackById key => getTrackByIdS store key
  | .artistBillieEilish => artistBillieEilishS store
  | .genrePop => genrePopS store
  | .playlistWorkout => workoutS store
  | .playlistCalm => calmS store

/-- Full request handling including the connection-guard middleware
(src/server.js lines 23-29): when the mongoose connection readyState is not
1 (established), every route answers 503 before any store operation runs. -/
def handleS (readyState : Nat) (store : Store) (r : Route) : Resp × Store :=
  if readyState = 1 then
    dispatchS store r
  else
    (Resp.err 503 "Service unavailable", store)

/-- seedDatabase (src/server.js lines 62-69): clears the collection, then
saves every record of the static dataset in order.  The dataset file is not
part of the resolver source, so it is a parameter. -/
def seedDatabase (dataset : List Track) (store : Store) : Store :=
  dataset.foldl Track.save (Track.deleteManyAll store)

/-- The RESET_DB gate around seedDatabase (src/server.js line 61): the seed
step runs only when the environment flag is set. -/
def maybeSeed (resetDB : Bool) (dataset : List Track) (store : Store) : Store :=
  if resetDB then seedDatabase dataset store else store

/-- Response of GET /tracks/ alone. -/
def getTracks (store : Store) (q : Query) : Resp := (getTracksS store q).1

/-- Response of GET /tracks/id/:id alone. -/
def getTrackById (store : Store) (key : String) : Resp :=
  (getTrackByIdS store key).1

/-- Response of the workout playlist route alone. -/
def workout (store : Store) : Resp := (workoutS store).1

/-- Response of the calm playlist route alone. -/
def calm (store : Store) : Resp := (calmS store).1

/-- Lookup in an association map yields a pair of the map. -/
theorem lookup_mem {q : Query} {k : QField} {v : String}
    (h : List.lookup k q = some v) : (k, v) ∈ q := by
  induction q with
  | nil => simp [List.lookup] at h
  | cons p rest ih =>
    obtain ⟨k', v'⟩ := p
    rw [List.lookup] at h
    by_cases hk : (k == k') = true
    · rw [hk] at h
      simp at h
      have hkk : k = k' := beq_iff_eq.mp hk
      subst hkk
      subst h
      exact List.mem_cons_self _ _
    · rw [Bool.not_eq_true] at hk
      rw [hk] at h
      exact List.mem_cons_of_mem _ (ih h)

/-- A concrete record used to instantiate witnesses. -/
def sampleTrack : Track where
  oid := "aaaaaaaaaaaaaaaaaaaaaaaa"
  id := 1
  trackName := "Song A"
  artistName := "Drake"
  genre := "pop"
  year := 2016
  bpm := 80
  energy := 85
  danceability := 50
  loudness := -5
  liveness := 10
  valence := 40
  length := 200
  acousticness := 5
  speechiness := 4
  popularity := 90

/-- A store of eleven identical danceable records: more than the page cap. -/
def overrideCexStore : Store := List.replicate 11 sampleTrack

/-- C1: when GET /tracks/ receives a danceability parameter carrying a
numeric threshold, the response is 200 with exactly the records whose
danceability strictly exceeds that threshold; every other supplied filter
field is ignored, the exact-match result being discarded rather than
intersected. -/
theorem c1_danceability_override (store : Store) (q : Query) (v : String)
    (n : Int) (hv : q.lookup QField.danceability = some v)
    (hn : strToInt? v = some n) :
    getTracks store q
      = Resp.json 200 (store.filter fun t => n < t.danceability) := by
  have hv0 : v ≠ "" := by
    intro he
    rw [he] at hn
    have h0 : strToInt? "" = none := by decide
    rw [h0] at hn
    exact Option.noConfusion hn
  have hne : jsTruthy v = true := by simp [jsTruthy, hv0]
  unfold getTracks getTracksS
  simp [arrayTruthy, hv, hne, Track.find, Track.findGtDanceability, gtCast, hn]

/-- C1 witness: the override at threshold 40 over a one-record store. -/
theorem c1_danceability_override_witness :
    getTracks [sampleTrack] [(QField.genre, "rock"), (QField.danceability, "40")]
      = Resp.json 200 ([sampleTrack].filter fun t => (40 : Int) < t.danceability) :=
  c1_danceability_override [sampleTrack]
    [(QField.genre, "rock"), (QField.danceability, "40")] "40" 40
    (by decide) (by decide)

/-- C2 counterexample: the 10-record cap does not hold on the
danceability-override path.  Over a store of eleven records of danceability
50, the request danceability=40 answers with all eleven records. -/
theorem c2_cap_cex :
    ¬ ∀ (store : Store) (q : Query), respLen (getTracks store q) ≤ 10 := by
  intro h
  exact absurd (h overrideCexStore [(QField.danceability, "40")]) (by decide)

/-- C2 amended: the 10-record cap holds exactly on the requests that stay on
the exact-match path, that is whenever the danceability parameter is absent
or carries the empty (falsy) value; the danceability-override path returns
the threshold query result uncapped. -/
theorem c2_cap_exact_path (store : Store) (q : Query)
    (h : q.lookup QField.danceability = none ∨
      q.lookup QField.danceability = some "") :
    respLen (getTracks store q) ≤ 10 := by
  unfold getTracks getTracksS
  rcases h with h | h <;>
    simp [arrayTruthy, h, jsTruthy, respLen, respBody, Track.find,
      List.length_take]

/-- C2 witness: the cap theorem applied to the empty filter map. -/
theorem c2_cap_exact_path_witness :
    respLen (getTracks overrideCexStore []) ≤ 10 :=
  c2_cap_exact_path overrideCexStore [] (Or.inl rfl)

/-- C3: with no danceability key the list operation answers 200 with exactly
the records matching every supplied field by equality, in store order,
capped at 10; the empty filter map yields the full capped collection and is
never an error. -/
theorem c3_no_danceability_exact (store : Store) (q : Query)
    (h : q.lookup QField.danceability = none) :
    getTracks store q
        = Resp.json 200 ((store.filter (matchesFilter q)).take 10)
    ∧ getTracks store [] = Resp.json 200 (store.take 10) := by
  constructor
  · unfold getTracks getTracksS
    simp [arrayTruthy, h, Track.find]
  · unfold getTracks getTracksS
    have hm : matchesFilter [] = fun _ => true := by
      funext t
      simp [matchesFilter]
    simp [arrayTruthy, Track.find, List.lookup, hm]

/-- C3 witness: a genre filter and the empty map over a one-record store. -/
theorem c3_no_danceability_exact_witness :
    getTracks [sampleTrack] [(QField.genre, "pop")]
        = Resp.json 200 (([sampleTrack].filter
            (matchesFilter [(QField.genre, "pop")])).take 10)
    ∧ getTracks [sampleTrack] [] = Resp.json 200 ([sampleTrack].take 10) :=
  c3_no_danceability_exact [sampleTrack] [(QField.genre, "pop")] (by decide)

/-- C9: the 404 branch of the list operation is unreachable: the handler
guards on JavaScript truthiness of the query result, an array is always
truthy, so every resolved query, a zero-match one included, answers 200. -/
theorem c9_list_always_200 (store : Store) (q : Query) :
    (getTracks store q).status = 200
    ∧ ∀ l : List Track, arrayTruthy l = true := by
  refine ⟨?_, fun l => rfl⟩
  unfold getTracks getTracksS
  simp [arrayTruthy]
  cases q.lookup QField.danceability with
  | none => rfl
  | some v =>
    by_cases hv : jsTruthy v = true <;> simp [hv, Resp.status]

/-- C10: a present-but-empty danceability value is falsy, so the override is
not applied: the request stays on the exact-match path with danceability
included as an exact-match field, which matches no record, and the response
is 200 with the empty collection. -/
theorem c10_empty_danceability_value (store : Store) (q : Query)
    (h : q.lookup QField.danceability = some "") :
    getTracks store q = Resp.json 200 []
    ∧ store.filter (matchesFilter q) = [] := by
  have hmem : (QField.danceability, "") ∈ q := lookup_mem h
  have hfil : store.filter (matchesFilter q) = [] := by
    rw [List.filter_eq_nil_iff]
    intro t ht hmt
    unfold matchesFilter at hmt
    have hone := (List.all_eq_true.mp hmt) (QField.danceability, "") hmem
    have h0 : strToInt? "" = none := by decide
    simp [matchField, numMatch, h0] at hone
  refine ⟨?_, hfil⟩
  unfold getTracks getTracksS
  simp [arrayTruthy, h, jsTruthy, Track.find, hfil]

/-- C10 witness: danceability with an empty value over a one-record store. -/
theorem c10_empty_danceability_value_witness :
    getTracks [sampleTrack] [(QField.danceability, "")] = Resp.json 200 []
    ∧ [sampleTrack].filter (matchesFilter [(QField.danceability, "")]) = [] :=
  c10_empty_danceability_value [sampleTrack] [(QField.danceability, "")]
    (by decide)

/-- C4: trichotomy of GET /tracks/id/:id: a well-formed key with a matching
record answers 200 with that record; a well-formed key with no match
answers 404; a malformed key raises in the store lookup and answers 400,
distinct from not-found. -/
theorem c4_by_id_trichotomy (store : Store) (key : String) :
    (∀ t, validObjectId key = true →
        store.find? (fun s => s.oid == key) = some t →
        getTrackById store key = Resp.jsonOne 200 t)
    ∧ (validObjectId key = true →
        store.find? (fun s => s.oid == key) = none →
        getTrackById store key = Resp.err 404 "Track not found")
    ∧ (validObjectId key = false →
        getTrackById store key = Resp.err 400 "Invalid Id") := by
  refine ⟨?_, ?_, ?_⟩
  · intro t hvalid hfind
    unfold getTrackById getTrackByIdS Track.findById
    simp [hvalid, hfind]
  · intro hvalid hfind
    unfold getTrackById getTrackByIdS Track.findById
    simp [hvalid, hfind]
  · intro hvalid
    unfold getTrackById getTrackByIdS Track.findById
    simp [hvalid]

/-- C4 witness: the three outcomes on a one-record store with a matching
24-hex key, a fresh 24-hex key, and a malformed key. -/
theorem c4_by_id_trichotomy_witness :
    getTrackById [sampleTrack] "aaaaaaaaaaaaaaaaaaaaaaaa"
        = Resp.jsonOne 200 sampleTrack
    ∧ getTrackById [sampleTrack] "cccccccccccccccccccccccc"
        = Resp.err 404 "Track not found"
    ∧ getTrackById [sampleTrack] "zzz" = Resp.err 400 "Invalid Id" :=
  ⟨(c4_by_id_trichotomy [sampleTrack] "aaaaaaaaaaaaaaaaaaaaaaaa").1 sampleTrack
      (by decide) (by decide),
   (c4_by_id_trichotomy [sampleTrack] "cccccccccccccccccccccccc").2.1
      (by decide) (by decide),
   (c4_by_id_trichotomy [sampleTrack] "zzz").2.2 (by decide)⟩

/-- C5: workout returns exactly the records of energy at least 80, calm
exactly those of energy at most 20, both thresholds inclusive; the two
result sets are disjoint, a record of energy exactly 80 appears only in
workout, and one of energy exactly 20 appears only in calm. -/
theorem c5_energy_playlists (store : Store) :
    workout store = Resp.json 200 (store.filter fun t => 80 ≤ t.energy)
    ∧ calm store = Resp.json 200 (store.filter fun t => t.energy ≤ 20)
    ∧ (respBody (workout store)).all
        (fun t => !decide (t ∈ respBody (calm store))) = true
    ∧ (∀ t, t ∈ store → t.energy = 80 →
        t ∈ respBody (workout store)
        ∧ decide (t ∈ respBody (calm store)) = false)
    ∧ (∀ t, t ∈ store → t.energy = 20 →
        t ∈ respBody (calm store)
        ∧ decide (t ∈ respBody (workout store)) = false) := by
  refine ⟨rfl, rfl, ?_, ?_, ?_⟩
  · rw [List.all_eq_true]
    intro t htw
    have hw : t ∈ store ∧ 80 ≤ t.energy := by
      simpa [workout, workoutS, Track.findCb, respBody, List.mem_filter]
        using htw
    have h80 := hw.2
    simp [calm, calmS, Track.findCb, respBody, List.mem_filter]
    exact Or.inr (by omega)
  · intro t ht h80
    constructor
    · simp [workout, workoutS, Track.findCb, respBody, List.mem_filter]
      exact ⟨ht, by omega⟩
    · have hc : ¬ (t ∈ store ∧ t.energy ≤ 20) := by
        intro hcontra
        have h2 := hcontra.2
        omega
      simpa [calm, calmS, Track.findCb, respBody, List.mem_filter] using hc
  · intro t ht h20
    constructor
    · simp [calm, calmS, Track.findCb, respBody, List.mem_filter]
      exact ⟨ht, by omega⟩
    · have hc : ¬ (t ∈ store ∧ 80 ≤ t.energy) := by
        intro hcontra
        have h2 := hcontra.2
        omega
      simpa [workout, workoutS, Track.findCb, respBody, List.mem_filter]
        using hc

/-- A record at the inclusive workout boundary, energy exactly 80. -/
def boundaryWorkoutTrack : Track :=
  { sampleTrack with energy := 80, oid := "bbbbbbbbbbbbbbbbbbbbbbbb" }

/-- A record at the inclusive calm boundary, energy exactly 20. -/
def boundaryCalmTrack : Track :=
  { sampleTrack with energy := 20, oid := "cccccccccccccccccccccccc" }

/-- C5 witness: the playlist theorem instantiated on a two-record store
holding one record at each boundary. -/
theorem c5_energy_playlists_witness :
    (boundaryWorkoutTrack ∈
        respBody (workout [boundaryWorkoutTrack, boundaryCalmTrack])
      ∧ decide (boundaryWorkoutTrack ∈
          respBody (calm [boundaryWorkoutTrack, boundaryCalmTrack])) = false)
    ∧ (boundaryCalmTrack ∈
        respBody (calm [boundaryWorkoutTrack, boundaryCalmTrack])
      ∧ decide (boundaryCalmTrack ∈
          respBody (workout [boundaryWorkoutTrack, boundaryCalmTrack])) = false) :=
  ⟨(c5_energy_playlists [boundaryWorkoutTrack, boundaryCalmTrack]).2.2.2.1
      boundaryWorkoutTrack (by decide) (by decide),
   (c5_energy_playlists [boundaryWorkoutTrack, boundaryCalmTrack]).2.2.2.2
      boundaryCalmTrack (by decide) (by decide)⟩

/-- C6: whenever the connection readyState is not 1 (established), every
route answers 503 with the error body and the store is left untouched: the
guard middleware answers before any store operation is issued, so the
response does not depend on the store contents at all. -/
theorem c6_connection_guard (readyState : Nat) (store : Store) (r : Route)
    (h : readyState ≠ 1) :
    handleS readyState store r = (Resp.err 503 "Service unavailable", store) := by
  unfold handleS
  simp [h]

/-- C6 witness: readyState 0 on the root route over the empty store. -/
theorem c6_connection_guard_witness :
    handleS 0 [] Route.root = (Resp.err 503 "Service unavailable", []) :=
  c6_connection_guard 0 [] Route.root (by decide)

/-- The list handler leaves the store unchanged. -/
theorem getTracksS_snd (store : Store) (q : Query) :
    (getTracksS store q).2 = store := by
  unfold getTracksS
  simp [arrayTruthy, Track.find, Track.findGtDanceability]
  cases q.lookup QField.danceability with
  | none => rfl
  | some v => by_cases hv : jsTruthy v = true <;> simp [hv]

/-- The primary-key lookup leaves the store unchanged. -/
theorem findById_snd (store : Store) (key : String) :
    (Track.findById store key).2 = store := by
  unfold Track.findById
  split <;> rfl

/-- The by-id handler leaves the store unchanged. -/
theorem getTrackByIdS_snd (store : Store) (key : String) :
    (getTrackByIdS store key).2 = store := by
  unfold getTrackByIdS
  dsimp only
  split <;> exact findById_snd store key

/-- C7: no exposed route mutates the store: for every route and request the
store after handling equals the store before, and the ungated seed step is
the identity, so only the gated seed step ever writes. -/
theorem c7_handlers_pure (readyState : Nat) (store : Store) (r : Route) :
    (handleS readyState store r).2 = store
    ∧ ∀ dataset : List Track, maybeSeed false dataset store = store := by
  refine ⟨?_, fun dataset => rfl⟩
  unfold handleS
  by_cases h : readyState = 1
  · simp [h]
    cases r <;>
      simp [dispatchS, getTracksS_snd, getTrackByIdS_snd,
        artistBillieEilishS, genrePopS, workoutS, calmS, Track.findCb]
  · simp [h]

/-- C8: one seed run clears the collection and bulk-inserts the dataset, so
a second run reproduces the same state (idempotence per invocation), and
with the RESET_DB gate unset the seed step does not run at all. -/
theorem c8_seed_idempotent_gated (dataset : List Track) (store : Store) :
    seedDatabase dataset (seedDatabase dataset store)
        = seedDatabase dataset store
    ∧ maybeSeed false dataset store = store :=
  ⟨rfl, rfl⟩
